import Mathlib

set_option maxRecDepth 100000

/-!
Shallow embedding of the credential-lifecycle and permission-evaluation core
of the repository (Go sources under internal/): the JWT token issuer
(internal/usecase/auth/jwt_service.go), the password service
(internal/usecase/auth/password_service.go), the role permission algebra
(internal/domain/role.go), the cache key builder
(internal/infrastructure/cache/keys.go), the Redis-backed session cache
(internal/infrastructure/cache), and the auth use case
(internal/usecase/auth, Register / Login / RefreshToken / Logout) together
with the HTTP login handler error mapping
(internal/delivery/http/handler/auth_handler.go) and the bearer-token
authentication middleware (internal/middleware/auth.go).

Modelling conventions:
* Time instants and durations are `Int` seconds (JWT NumericDate timestamps
  have second precision under the library default `jwt.TimePrecision`).
  Each operation receives the current time `now` explicitly in place of the
  calls to `time.Now()`.
* A signed JWT (the three-segment string produced by
  `golang-jwt`’s `SignedString`) is modelled by its parsed form `Token`;
  the HMAC signature is modelled as an ideal MAC: a `Signature` value that
  records exactly the secret, algorithm and payload it authenticates, so
  that verification succeeds precisely when the recomputation matches.
  HS256 signing is deterministic in (claims, secret), which the model
  preserves; `Token.signedString` is a concrete injective-in-practice
  rendering used where the Go code manipulates the token as a string.
* External collaborators are modelled by their contracts: the Identity
  Store (the postgres user repository, declared in
  internal/domain/repository/user_repository.go) as a list of users, the
  Session Store (Redis) as an association list of (key, value, ttl)
  entries with the error messages of the in-repo RedisCache wrapper, and
  bcrypt as an ideal deterministic hash (`HashPassword` rejects the empty
  password exactly as the Go PasswordService does).  `net/mail.ParseAddress`
  is an environment-supplied boolean predicate.
-/

/-! ## Token issuer (internal/usecase/auth/jwt_service.go) -/

/-- Signing algorithm of a JWS header, as discriminated by the keyfunc in
`ValidateToken` (it accepts exactly the `*jwt.SigningMethodHMAC` family). -/
inductive Alg where
  | HS256
  | HS384
  | RS256
  | ES256
  | NoAlg
deriving DecidableEq

/-- True exactly for the symmetric HMAC family (`jwt.SigningMethodHMAC`). -/
def Alg.isHMAC : Alg → Bool
  | .HS256 => true
  | .HS384 => true
  | _ => false

def Alg.name : Alg → String
  | .HS256 => "HS256"
  | .HS384 => "HS384"
  | .RS256 => "RS256"
  | .ES256 => "ES256"
  | .NoAlg => "none"

/-- The `Claims` struct of jwt_service.go: `UserID`, `Email` plus the
embedded `jwt.RegisteredClaims` fields that the service sets
(`ExpiresAt`, `IssuedAt`, `Issuer`), flattened. -/
structure Claims where
  userID : String
  email : String
  expiresAt : Int
  issuedAt : Int
  issuer : String
deriving DecidableEq

/-- Ideal MAC: the signature value records the secret, algorithm and payload
it was computed over; verification recomputes and compares. -/
structure Signature where
  secret : String
  alg : Alg
  payload : Claims
deriving DecidableEq

/-- A signed token (the parsed form of the three-segment JWS string). -/
structure Token where
  alg : Alg
  claims : Claims
  sig : Signature
deriving DecidableEq

/-- `SignedString`: sign `claims` with `secret` under `alg`. -/
def signToken (alg : Alg) (secret : String) (claims : Claims) : Token :=
  { alg := alg, claims := claims, sig := { secret := secret, alg := alg, payload := claims } }

def encClaims (c : Claims) : String :=
  "user_id=" ++ c.userID ++ ";email=" ++ c.email ++ ";exp=" ++ toString c.expiresAt ++
    ";iat=" ++ toString c.issuedAt ++ ";iss=" ++ c.issuer

/-- Concrete rendering of the token as a string (stands for the
base64 three-segment JWS serialization; deterministic, like HS256). -/
def Token.signedString (t : Token) : String :=
  t.alg.name ++ "." ++ encClaims t.claims ++ ".mac," ++ t.sig.secret ++ "," ++
    t.sig.alg.name ++ "," ++ encClaims t.sig.payload

/-- `config.JWTConfig` (internal/config/config.go): signing secret, the two
token lifetimes and the issuer string. -/
structure JWTConfig where
  secret : String
  accessTokenExpiry : Int
  refreshTokenExpiry : Int
  issuer : String

namespace JWTService

/-- `GenerateAccessToken(userID, email)`: HS256 token embedding the user id,
the email, `exp = now + AccessTokenExpiry`, `iat = now` and the issuer. -/
def GenerateAccessToken (cfg : JWTConfig) (now : Int) (userID email : String) : Token :=
  signToken .HS256 cfg.secret
    { userID := userID, email := email, expiresAt := now + cfg.accessTokenExpiry,
      issuedAt := now, issuer := cfg.issuer }

/-- `GenerateRefreshToken(userID)`: HS256 token embedding the user id only
(the `Email` field is left at its zero value `""`),
`exp = now + RefreshTokenExpiry`, `iat = now` and the issuer. -/
def GenerateRefreshToken (cfg : JWTConfig) (now : Int) (userID : String) : Token :=
  signToken .HS256 cfg.secret
    { userID := userID, email := "", expiresAt := now + cfg.refreshTokenExpiry,
      issuedAt := now, issuer := cfg.issuer }

/-- `ValidateToken`: the keyfunc rejects any non-HMAC signing method before
the key is even returned; then the signature is verified against the
configured secret; then the registered claims are validated (the token is
valid only while `now < exp`).  On success the embedded claims are
returned. -/
def ValidateToken (cfg : JWTConfig) (now : Int) (t : Token) : Except String Claims :=
  if t.alg.isHMAC = false then
    .error "invalid token: unexpected signing method"
  else if t.sig ≠ { secret := cfg.secret, alg := t.alg, payload := t.claims } then
    .error "invalid token: signature is invalid"
  else if now < t.claims.expiresAt then
    .ok t.claims
  else
    .error "invalid token: token is expired"

end JWTService

/-! ## Password service (internal/usecase/auth/password_service.go) -/

namespace PasswordService

/-- `HashPassword`: rejects the empty password, otherwise bcrypt-hashes at
cost 12.  bcrypt is modelled as an ideal deterministic hash. -/
def HashPassword (password : String) : Except String String :=
  if password = "" then .error "password cannot be empty"
  else .ok ("bcrypt12$" ++ password)

/-- `ComparePassword(hash, password)`: succeeds exactly when `hash` is the
bcrypt hash of `password`; a mismatch is the distinct
"invalid password" error. -/
def ComparePassword (hashedPassword password : String) : Except String Unit :=
  if hashedPassword = "bcrypt12$" ++ password then .ok ()
  else .error "invalid password"

end PasswordService

/-! ## Role permission algebra (internal/domain/role.go) -/

/-- `domain.Role`: the `Permissions` field is a jsonb value; `none` stands
for a value that does not unmarshal into a string list. -/
structure Role where
  id : String
  name : String
  permissions : Option (List String)
deriving DecidableEq

/-- `GetPermissions`: unmarshal the jsonb array, returning `[]` when the
stored JSON does not decode. -/
def Role.GetPermissions (r : Role) : List String :=
  r.permissions.getD []

/-- `HasPermission`: scan the permission list; a stored `"*"` or an exact
match grants the permission. -/
def Role.HasPermission (r : Role) (permission : String) : Bool :=
  r.GetPermissions.any fun perm => perm == "*" || perm == permission

/-- `HasAllPermissions`: build the membership map (membership in the map is
membership in the permission list); `"*"` short-circuits to true, otherwise
every required permission must be present. -/
def Role.HasAllPermissions (r : Role) (permissions : List String) : Bool :=
  if r.GetPermissions.contains "*" then true
  else permissions.all fun required => r.GetPermissions.contains required

/-! ## Session Store (internal/infrastructure/cache) -/

/-- One Redis entry: `SET key value ttl`.  The ttl is recorded as stored;
claims in this development concern immediate operation sequences, so decay
of entries over time is not modelled. -/
structure CacheEntry where
  key : String
  value : String
  ttl : Int
deriving DecidableEq

abbrev CacheState := List CacheEntry

/-- Redis `GET` through RedisCache.Get: a missing key is the
"key not found" error. -/
def cacheGet (c : CacheState) (key : String) : Except String String :=
  match c.find? (fun e => e.key == key) with
  | some e => .ok e.value
  | none => .error ("key not found: " ++ key)

/-- Redis `SET` through RedisCache.Set: overwrites any previous value. -/
def cacheSet (c : CacheState) (key value : String) (ttl : Int) : CacheState :=
  { key := key, value := value, ttl := ttl } :: c.filter fun e => !(e.key == key)

/-- Redis `DEL` through RedisCache.Delete: deleting an absent key is not an
error. -/
def cacheDelete (c : CacheState) (key : String) : CacheState :=
  c.filter fun e => !(e.key == key)

/-- TTL recorded for `key`, if present. -/
def cacheTTL (c : CacheState) (key : String) : Option Int :=
  (c.find? (fun e => e.key == key)).map fun e => e.ttl

/-- `CacheKeyBuilder` (internal/infrastructure/cache/keys.go); `main.go`
constructs it with the namespace string "elysian". -/
structure CacheKeyBuilder where
  pfx : String

/-- `CacheKeyBuilder.RefreshToken`: `fmt.Sprintf("%s:refresh_token:%s", b.prefix, token)`. -/
def CacheKeyBuilder.RefreshToken (b : CacheKeyBuilder) (token : String) : String :=
  b.pfx ++ ":refresh_token:" ++ token

/-! ## Identity Store
Modelled from the spec: the postgres implementation of
`repository.UserRepository` is not under src/ (only the interface in
internal/domain/repository/user_repository.go is); §6 of the spec gives its
contract — `FindByID`/`FindByEmail` fail with a distinct NotFound kind when
the record is absent, `ExistsByEmail` returns a boolean, `Create` persists
a new row whose id the database generates. -/

/-- `domain.User`, restricted to the fields the modelled operations read or
write. -/
structure User where
  id : String
  email : String
  passwordHash : String
  name : String
  isActive : Bool
  lastLoginAt : Option Int
deriving DecidableEq

/-- The user table plus the state of the id generator
(`gen_random_uuid()` is modelled as a counter). -/
structure UserStore where
  users : List User
  nextID : Nat
deriving DecidableEq

def UserStore.findByEmail (s : UserStore) (email : String) : Except String User :=
  match s.users.find? (fun u => u.email == email) with
  | some u => .ok u
  | none => .error "record not found"

def UserStore.findByID (s : UserStore) (id : String) : Except String User :=
  match s.users.find? (fun u => u.id == id) with
  | some u => .ok u
  | none => .error "record not found"

def UserStore.existsByEmail (s : UserStore) (email : String) : Bool :=
  s.users.any fun u => u.email == email

/-- `Create`: insert the row, with a database-generated id. -/
def UserStore.create (s : UserStore) (email passwordHash name : String) : User × UserStore :=
  let u : User :=
    { id := "uid-" ++ toString s.nextID, email := email, passwordHash := passwordHash,
      name := name, isActive := true, lastLoginAt := none }
  (u, { users := s.users ++ [u], nextID := s.nextID + 1 })

/-- `Update`: replace the row with the matching id. -/
def UserStore.update (s : UserStore) (u : User) : UserStore :=
  { s with users := s.users.map fun v => if v.id == u.id then u else v }

/-! ## Auth use case (internal/usecase/auth, the orchestrator) -/

/-- The character class `[A-Za-z0-9._%+-]` of the local part of the
registration email regex. -/
def isLocalChar (c : Char) : Bool :=
  c.isAlphanum || c == '.' || c == '_' || c == '%' || c == '+' || c == '-'

/-- The character class `[A-Za-z0-9.-]` of the domain part. -/
def isDomainChar (c : Char) : Bool :=
  c.isAlphanum || c == '.' || c == '-'

/-- Split a character list at every occurrence of `sep` (the separator is
dropped; adjacent separators yield empty fragments), mirroring
`strings.Split` and the segment structure of the regex. -/
def splitOnChar (sep : Char) : List Char → List (List Char)
  | [] => [[]]
  | c :: cs =>
    let rest := splitOnChar sep cs
    if c = sep then [] :: rest
    else
      match rest with
      | h :: t => (c :: h) :: t
      | [] => [[c]]

/-- The Register email pattern
`^[A-Za-z0-9._%+-]+@[A-Za-z0-9.-]+\.[A-Za-z]{2,}$`: exactly one `@`; a
nonempty local part over its class; a domain that splits at its last dot
into a nonempty part over the domain class and a final all-letter label of
length at least 2. -/
def emailRegexMatch (s : String) : Bool :=
  match splitOnChar '@' s.data with
  | [localPart, domain] =>
    !localPart.isEmpty && localPart.all isLocalChar &&
      (let ps := splitOnChar '.' domain
       let tld := ps.getLastD []
       decide (2 ≤ ps.length) && domain.all isDomainChar &&
         decide (2 ≤ tld.length) && tld.all Char.isAlpha &&
         decide (tld.length + 2 ≤ domain.length))
  | _ => false

structure RegisterRequest where
  email : String
  password : String
  name : String
deriving DecidableEq

structure LoginRequest where
  email : String
  password : String
deriving DecidableEq

structure AuthResponse where
  accessToken : String
  refreshToken : String
  user : User
deriving DecidableEq

/-- The collaborators injected into `authUseCase` that are pure
configuration: the `net/mail.ParseAddress` structural check (external
library, supplied as a predicate), the cache key builder and the JWT
config. -/
structure AuthEnv where
  parseAddressOk : String → Bool
  keyBuilder : CacheKeyBuilder
  cfg : JWTConfig

/-- The mutable world the orchestrator acts on: the Identity Store and the
Session Store. -/
structure AuthState where
  users : UserStore
  cache : CacheState
deriving DecidableEq

namespace AuthUseCase

/-- `Register` (user_repository.go:99-158, the auth use case file): parse
the address, match the stricter regex, check email uniqueness, enforce the
8-character password minimum, hash, persist the user, issue both tokens,
and register the refresh token in the Session Store under the built key
with the hardcoded TTL `7*time.Hour*24`.  The response user is returned as
persisted — its password hash field is not cleared here. -/
def Register (env : AuthEnv) (st : AuthState) (now : Int) (req : RegisterRequest) :
    Except String (AuthState × AuthResponse) :=
  if env.parseAddressOk req.email = false then
    .error "invalid email format"
  else if emailRegexMatch req.email = false then
    .error "invalid email format: does not match required pattern"
  else if st.users.existsByEmail req.email then
    .error "email already registered"
  else if req.password.length < 8 then
    .error "password must be at least 8 characters"
  else
    match PasswordService.HashPassword req.password with
    | .error e => .error e
    | .ok hashedPass =>
      let user := (st.users.create req.email hashedPass req.name).1
      let users' := (st.users.create req.email hashedPass req.name).2
      let accessToken := (JWTService.GenerateAccessToken env.cfg now user.id user.email).signedString
      let refreshToken := (JWTService.GenerateRefreshToken env.cfg now user.id).signedString
      let refreshKey := env.keyBuilder.RefreshToken refreshToken
      let cache' := cacheSet st.cache refreshKey user.id (7 * 3600 * 24)
      .ok ({ users := users', cache := cache' },
        { accessToken := accessToken, refreshToken := refreshToken, user := user })

/-- `Login` (user_repository.go:160-198): fetch by email, verify the
password, issue both tokens, register the refresh token with the hardcoded
TTL `7*time.Hour*24`, update the last-login timestamp, and only then clear
the password hash on the returned user. -/
def Login (env : AuthEnv) (st : AuthState) (now : Int) (req : LoginRequest) :
    Except String (AuthState × AuthResponse) :=
  match st.users.findByEmail req.email with
  | .error e => .error e
  | .ok user =>
    match PasswordService.ComparePassword user.passwordHash req.password with
    | .error e => .error e
    | .ok _ =>
      let accessToken := (JWTService.GenerateAccessToken env.cfg now user.id user.email).signedString
      let refreshToken := (JWTService.GenerateRefreshToken env.cfg now user.id).signedString
      let refreshKey := env.keyBuilder.RefreshToken refreshToken
      let cache' := cacheSet st.cache refreshKey user.id (7 * 3600 * 24)
      let user' := { user with lastLoginAt := some now }
      let users' := st.users.update user'
      .ok ({ users := users', cache := cache' },
        { accessToken := accessToken, refreshToken := refreshToken,
          user := { user' with passwordHash := "" } })

/-- `RefreshToken` (user_repository.go:200-238): look the literal token
string up in the Session Store under the built key, fetch the bound user,
issue a new pair, delete the old entry, register the new refresh token with
the hardcoded TTL `7*time.Hour*24`, and return the pair with the password
hash cleared on the response user (the store row is not updated). -/
def RefreshToken (env : AuthEnv) (st : AuthState) (now : Int) (refreshToken : String) :
    Except String (AuthState × AuthResponse) :=
  let refreshKey := env.keyBuilder.RefreshToken refreshToken
  match cacheGet st.cache refreshKey with
  | .error e => .error e
  | .ok userID =>
    match st.users.findByID userID with
    | .error e => .error e
    | .ok user =>
      let newAccessToken := (JWTService.GenerateAccessToken env.cfg now user.id user.email).signedString
      let newRefreshToken := (JWTService.GenerateRefreshToken env.cfg now user.id).signedString
      let cache₁ := cacheDelete st.cache refreshKey
      let newRefreshKey := env.keyBuilder.RefreshToken newRefreshToken
      let cache₂ := cacheSet cache₁ newRefreshKey user.id (7 * 3600 * 24)
      .ok ({ users := st.users, cache := cache₂ },
        { accessToken := newAccessToken, refreshToken := newRefreshToken,
          user := { user with passwordHash := "" } })

/-- `Logout` (user_repository.go:240-246): deletes the key
`fmt.Sprintf("refresh_token:%s", refreshToken)` — built directly, not
through the injected `CacheKeyBuilder`. -/
def Logout (st : AuthState) (refreshToken : String) : AuthState :=
  let refreshKey := "refresh_token:" ++ refreshToken
  { st with cache := cacheDelete st.cache refreshKey }

end AuthUseCase

/-! ## HTTP login handler (internal/delivery/http/handler/auth_handler.go) -/

/-- Outcome of a handler as written to the HTTP response: a status code
plus either the auth payload or an error message body. -/
inductive HttpReply where
  | ok (code : Nat) (body : AuthResponse)
  | fail (code : Nat) (msg : String)
deriving DecidableEq

/-- `AuthHandler.Login` (auth_handler.go:93-115): any use-case error is
mapped to 401 with the fixed body "Invalid email or password"; a success is
a 200 with the tokens and user.  The reply is paired with the resulting
world state. -/
def handlerLogin (env : AuthEnv) (st : AuthState) (now : Int) (req : LoginRequest) :
    HttpReply × AuthState :=
  match AuthUseCase.Login env st now req with
  | .error _ => (.fail 401 "Invalid email or password", st)
  | .ok (st', res) => (.ok 200 res, st')

/-! ## Bearer-token authentication gate (internal/middleware/auth.go) -/

/-- `AuthMiddleware` past header extraction (auth.go:33-59): validate the
bearer token, re-fetch the user by the embedded id, reject an inactive
account with 403, fetch the roles (a role-store failure degrades to the
empty list, so the fetch is modelled as a total function), and attach
user and roles to the request context. -/
def authenticate (cfg : JWTConfig) (users : UserStore) (roles : String → List Role)
    (now : Int) (tok : Token) : Except (Nat × String) (User × List Role) :=
  match JWTService.ValidateToken cfg now tok with
  | .error _ => .error (401, "Invalid or expired token")
  | .ok claims =>
    match users.findByID claims.userID with
    | .error _ => .error (401, "User not found")
    | .ok user =>
      if user.isActive = false then .error (403, "Account is disabled")
      else .ok (user, roles user.id)

/-! ## Concrete world used by witnesses and counterexamples -/

/-- JWT configuration as deployed: 15-minute access tokens, 7-day refresh
tokens. -/
def wCfg : JWTConfig :=
  { secret := "unit-test-signing-secret", accessTokenExpiry := 900,
    refreshTokenExpiry := 604800, issuer := "umkmai" }

/-- Environment mirroring `main.go`: key namespace "elysian"; the
structural address parser accepts the addresses used below. -/
def wEnv : AuthEnv :=
  { parseAddressOk := fun _ => true, keyBuilder := { pfx := "elysian" }, cfg := wCfg }

def wEmptyState : AuthState := { users := { users := [], nextID := 0 }, cache := [] }

def wReq : RegisterRequest :=
  { email := "alice@example.com", password := "password123", name := "Alice" }

/-- Extract the success payload of a use-case call (total, for witnesses). -/
def exOkD (e : Except String (AuthState × AuthResponse)) : AuthState × AuthResponse :=
  match e with
  | .ok p => p
  | .error _ =>
    (wEmptyState,
      { accessToken := "", refreshToken := "",
        user := { id := "", email := "", passwordHash := "", name := "",
                  isActive := false, lastLoginAt := none } })

def isOkE (e : Except String (AuthState × AuthResponse)) : Bool :=
  match e with
  | .ok _ => true
  | .error _ => false

/-- The world after a successful registration of `wReq` at time 0. -/
def wReg : AuthState × AuthResponse := exOkD (AuthUseCase.Register wEnv wEmptyState 0 wReq)

/-- The TTL recorded in the Session Store for the refresh token returned in
a response. -/
def sessionTTL (env : AuthEnv) (st : AuthState) (r : AuthResponse) : Option Int :=
  cacheTTL st.cache (env.keyBuilder.RefreshToken r.refreshToken)

/-- Environment whose configured refresh-TTL is one hour instead of the
default seven days. -/
def wEnvShort : AuthEnv :=
  { parseAddressOk := fun _ => true, keyBuilder := { pfx := "elysian" },
    cfg := { secret := "unit-test-signing-secret", accessTokenExpiry := 900,
             refreshTokenExpiry := 3600, issuer := "umkmai" } }

def wUser : User :=
  { id := "uid-0", email := "alice@example.com", passwordHash := "bcrypt12$password123",
    name := "Alice", isActive := true, lastLoginAt := none }

def wUsers : UserStore := { users := [wUser], nextID := 1 }

def wRolesFn : String → List Role := fun _ => []

def wRoleStar : Role := { id := "r1", name := "admin", permissions := some ["*"] }

def wRolePlain : Role := { id := "r2", name := "viewer", permissions := some ["workflow:read"] }

def wBadToken : Token :=
  signToken .RS256 "attacker-key"
    { userID := "uid-0", email := "alice@example.com", expiresAt := 999999999,
      issuedAt := 0, issuer := "umkmai" }

/-- First rotation of the registration's refresh token, performed in the
same second (time 0) at which that token was issued. -/
def wRefreshSame : AuthState × AuthResponse :=
  exOkD (AuthUseCase.RefreshToken wEnv wReg.1 0 wReg.2.refreshToken)

/-- First rotation of the registration's refresh token, performed at a
later second (time 5). -/
def wRefreshLater : AuthState × AuthResponse :=
  exOkD (AuthUseCase.RefreshToken wEnv wReg.1 5 wReg.2.refreshToken)

/-! ## Supporting lemmas -/

theorem string_append_cancel_left (s a b : String) (h : s ++ a = s ++ b) : a = b := by
  have hd : (s ++ a).data = (s ++ b).data := by rw [h]
  rw [String.data_append, String.data_append] at hd
  exact String.ext (List.append_cancel_left hd)

/-- The built refresh-token cache key determines the token string. -/
theorem refreshKey_injective (b : CacheKeyBuilder) (t₁ t₂ : String)
    (h : b.RefreshToken t₁ = b.RefreshToken t₂) : t₁ = t₂ := by
  unfold CacheKeyBuilder.RefreshToken at h
  exact string_append_cancel_left (b.pfx ++ ":refresh_token:") t₁ t₂ h

theorem cacheGet_set_self (c : CacheState) (k v : String) (ttl : Int) :
    cacheGet (cacheSet c k v ttl) k = .ok v := by
  simp [cacheGet, cacheSet, List.find?]

theorem cacheTTL_set_self (c : CacheState) (k v : String) (ttl : Int) :
    cacheTTL (cacheSet c k v ttl) k = some ttl := by
  simp [cacheTTL, cacheSet, List.find?]

/-- A lookup among entries whose keys all differ from `k` misses. -/
theorem cacheGet_notin (c : CacheState) (k : String) (h : ∀ e ∈ c, e.key ≠ k) :
    cacheGet c k = .error ("key not found: " ++ k) := by
  unfold cacheGet
  have hfind : List.find? (fun e => e.key == k) c = none := by
    rw [List.find?_eq_none]
    intro x hx
    simpa using h x hx
  rw [hfind]

/-- After deleting `kt` and then setting a different key `kn`, the lookup of
`kt` misses. -/
theorem cacheGet_delete_set_other (c : CacheState) (kt kn v : String) (ttl : Int)
    (h : kn ≠ kt) :
    cacheGet (cacheSet (cacheDelete c kt) kn v ttl) kt = .error ("key not found: " ++ kt) := by
  apply cacheGet_notin
  intro e he
  unfold cacheSet cacheDelete at he
  rcases List.mem_cons.mp he with he' | he'
  · rw [he']
    exact h
  · have hx := (List.mem_filter.mp (List.mem_filter.mp he').1).2
    simpa using hx

/-- Validating a freshly issued, not yet expired access token succeeds with
exactly the embedded claims. -/
theorem validate_fresh_access_token (cfg : JWTConfig) (now : Int) (id email : String)
    (h : 0 < cfg.accessTokenExpiry) :
    JWTService.ValidateToken cfg now (JWTService.GenerateAccessToken cfg now id email) =
      .ok { userID := id, email := email, expiresAt := now + cfg.accessTokenExpiry,
            issuedAt := now, issuer := cfg.issuer } := by
  unfold JWTService.ValidateToken JWTService.GenerateAccessToken signToken
  have hlt : now < now + cfg.accessTokenExpiry := by omega
  simp [Alg.isHMAC, hlt]

/-! ## Claim theorems -/

/-- C7: a role whose permission set contains the wildcard string satisfies
`HasPermission` for every permission string and `HasAllPermissions` for
every required list; and for every role, `HasAllPermissions` of the empty
required list is vacuously true. -/
theorem wildcard_grants_all (r : Role) (h : "*" ∈ r.GetPermissions) :
    (∀ p : String, r.HasPermission p = true) ∧
      (∀ ps : List String, r.HasAllPermissions ps = true) ∧
      (∀ r₂ : Role, r₂.HasAllPermissions [] = true) := by
  refine ⟨fun p => ?_, fun ps => ?_, fun r₂ => ?_⟩
  · unfold Role.HasPermission
    rw [List.any_eq_true]
    exact ⟨"*", h, by simp⟩
  · unfold Role.HasAllPermissions
    have hc : r.GetPermissions.contains "*" = true := by
      simpa using h
    simp only [hc, if_true]
  · unfold Role.HasAllPermissions
    by_cases hc : r₂.GetPermissions.contains "*" = true
    · simp [hc]
    · simp [hc]

/-- C7 witness: the wildcard role grants an arbitrary unseen permission and
an arbitrary required list, and a non-wildcard role satisfies the empty
required list. -/
theorem wildcard_grants_all_witness :
    wRoleStar.HasPermission "workflow:delete" = true ∧
      wRoleStar.HasAllPermissions ["workflow:read", "billing:write"] = true ∧
      wRolePlain.HasAllPermissions [] = true :=
  ⟨(wildcard_grants_all wRoleStar (by decide)).1 "workflow:delete",
   (wildcard_grants_all wRoleStar (by decide)).2.1 ["workflow:read", "billing:write"],
   (wildcard_grants_all wRoleStar (by decide)).2.2 wRolePlain⟩

/-- C9: every token whose header algorithm is outside the HMAC family is
rejected by `ValidateToken` with an error, before any claim is returned. -/
theorem validate_rejects_non_hmac (cfg : JWTConfig) (now : Int) (t : Token)
    (h : t.alg.isHMAC = false) :
    JWTService.ValidateToken cfg now t = .error "invalid token: unexpected signing method" := by
  unfold JWTService.ValidateToken
  simp [h]

/-- C9 witness: an RS256-signed token is rejected. -/
theorem validate_rejects_non_hmac_witness :
    JWTService.ValidateToken wCfg 0 wBadToken = .error "invalid token: unexpected signing method" :=
  validate_rejects_non_hmac wCfg 0 wBadToken (by decide)

/-- C6: validating a freshly issued access token succeeds and returns
claims carrying exactly the input user id and email, with expiry exactly
`now + AccessTokenExpiry` (here clock skew is zero: validation happens at
the same instant `now`). -/
theorem access_token_round_trip (cfg : JWTConfig) (now : Int) (id email : String)
    (h : 0 < cfg.accessTokenExpiry) :
    JWTService.ValidateToken cfg now (JWTService.GenerateAccessToken cfg now id email) =
      .ok { userID := id, email := email, expiresAt := now + cfg.accessTokenExpiry,
            issuedAt := now, issuer := cfg.issuer } :=
  validate_fresh_access_token cfg now id email h

/-- C6 witness. -/
theorem access_token_round_trip_witness :
    JWTService.ValidateToken wCfg 1700000000
        (JWTService.GenerateAccessToken wCfg 1700000000 "uid-0" "alice@example.com") =
      .ok { userID := "uid-0", email := "alice@example.com", expiresAt := 1700000000 + 900,
            issuedAt := 1700000000, issuer := "umkmai" } :=
  access_token_round_trip wCfg 1700000000 "uid-0" "alice@example.com" (by decide)

/-- C10: a freshly issued refresh token validates with the user id and an
empty email; the bearer-token gate (`AuthMiddleware`) accepts it for an
existing active user exactly as it accepts an access token, since both
token kinds share the claims shape, secret and algorithm with no kind
marker. -/
theorem refresh_token_accepted_by_auth_gate (cfg : JWTConfig) (users : UserStore)
    (roles : String → List Role) (now : Int) (uid : String) (user : User)
    (hr : 0 < cfg.refreshTokenExpiry) (ha : 0 < cfg.accessTokenExpiry)
    (hu : users.findByID uid = .ok user) (hact : user.isActive = true) :
    JWTService.ValidateToken cfg now (JWTService.GenerateRefreshToken cfg now uid) =
        .ok { userID := uid, email := "", expiresAt := now + cfg.refreshTokenExpiry,
              issuedAt := now, issuer := cfg.issuer } ∧
      authenticate cfg users roles now (JWTService.GenerateRefreshToken cfg now uid) =
        .ok (user, roles user.id) ∧
      authenticate cfg users roles now (JWTService.GenerateRefreshToken cfg now uid) =
        authenticate cfg users roles now (JWTService.GenerateAccessToken cfg now uid user.email) := by
  have hval :
      JWTService.ValidateToken cfg now (JWTService.GenerateRefreshToken cfg now uid) =
        .ok { userID := uid, email := "", expiresAt := now + cfg.refreshTokenExpiry,
              issuedAt := now, issuer := cfg.issuer } := by
    unfold JWTService.ValidateToken JWTService.GenerateRefreshToken signToken
    have hlt : now < now + cfg.refreshTokenExpiry := by omega
    simp [Alg.isHMAC, hlt]
  have haccess :
      JWTService.ValidateToken cfg now (JWTService.GenerateAccessToken cfg now uid user.email) =
        .ok { userID := uid, email := user.email, expiresAt := now + cfg.accessTokenExpiry,
              issuedAt := now, issuer := cfg.issuer } :=
    validate_fresh_access_token cfg now uid user.email ha
  have hgate :
      authenticate cfg users roles now (JWTService.GenerateRefreshToken cfg now uid) =
        .ok (user, roles user.id) := by
    unfold authenticate
    rw [hval]
    simp only []
    rw [hu]
    simp [hact]
  refine ⟨hval, hgate, ?_⟩
  rw [hgate]
  unfold authenticate
  rw [haccess]
  simp only []
  rw [hu]
  simp [hact]

/-- C10 witness: a concrete refresh token passes validation and the
middleware gate exactly like an access token. -/
theorem refresh_token_accepted_by_auth_gate_witness :
    JWTService.ValidateToken wCfg 0 (JWTService.GenerateRefreshToken wCfg 0 "uid-0") =
        .ok { userID := "uid-0", email := "", expiresAt := 0 + wCfg.refreshTokenExpiry,
              issuedAt := 0, issuer := wCfg.issuer } ∧
      authenticate wCfg wUsers wRolesFn 0 (JWTService.GenerateRefreshToken wCfg 0 "uid-0") =
        .ok (wUser, wRolesFn wUser.id) ∧
      authenticate wCfg wUsers wRolesFn 0 (JWTService.GenerateRefreshToken wCfg 0 "uid-0") =
        authenticate wCfg wUsers wRolesFn 0 (JWTService.GenerateAccessToken wCfg 0 "uid-0" wUser.email) :=
  refresh_token_accepted_by_auth_gate wCfg wUsers wRolesFn 0 "uid-0" wUser
    (by decide) (by decide) rfl rfl

/-- C8: for a valid registration input over a fresh email, `Register`
succeeds, and a second `Register` with the same email — whatever the
second password, even one shorter than 8 characters — fails with the
conflict error (the uniqueness check runs before the password check). -/
theorem register_unique_email_conflict (env : AuthEnv) (st : AuthState) (now : Int)
    (req : RegisterRequest)
    (hparse : env.parseAddressOk req.email = true)
    (hregex : emailRegexMatch req.email = true)
    (hlen : 8 ≤ req.password.length)
    (hfree : st.users.existsByEmail req.email = false) :
    isOkE (AuthUseCase.Register env st now req) = true ∧
      ∀ (st' : AuthState) (r : AuthResponse) (now₂ : Int) (pw₂ name₂ : String),
        AuthUseCase.Register env st now req = .ok (st', r) →
        AuthUseCase.Register env st' now₂ { email := req.email, password := pw₂, name := name₂ } =
          .error "email already registered" := by
  have hnlt : ¬(req.password.length < 8) := by omega
  have hne : ¬(req.password = "") := by
    intro he
    rw [he] at hlen
    simp at hlen
  have hhash : PasswordService.HashPassword req.password = .ok ("bcrypt12$" ++ req.password) := by
    unfold PasswordService.HashPassword
    simp [hne]
  constructor
  · unfold AuthUseCase.Register
    simp [hparse, hregex, hfree, hnlt, hhash, isOkE]
  · intro st' r now₂ pw₂ name₂ hok
    unfold AuthUseCase.Register at hok
    simp only [hparse, hregex, hfree, hnlt, hhash, Bool.true_eq_false, if_false, if_neg,
      Bool.false_eq_true, ite_false, ite_true, Except.ok.injEq, Prod.mk.injEq] at hok
    obtain ⟨h1, h2⟩ := hok
    subst h1
    unfold AuthUseCase.Register
    simp [hparse, hregex, UserStore.existsByEmail, UserStore.create, List.any_append]

/-- C8 witness: registration of a fresh email succeeds once; a second
registration of the same email with a 2-character password still fails
with the conflict error. -/
theorem register_unique_email_conflict_witness :
    isOkE (AuthUseCase.Register wEnv wEmptyState 0 wReq) = true ∧
      AuthUseCase.Register wEnv wReg.1 1 { email := wReq.email, password := "pw", name := "Mallory" } =
        .error "email already registered" := by
  have h := register_unique_email_conflict wEnv wEmptyState 0 wReq
    (by decide) (by decide) (by decide) (by decide)
  exact ⟨h.1, h.2 wReg.1 wReg.2 1 "pw" "Mallory" rfl⟩

/-- C2 (amended): every Session Store entry created for a newly issued
refresh token by Register, Login or RefreshToken carries the constant TTL
of 7 days (604800 s), irrespective of the configured refresh-TTL. -/
theorem session_ttl_constant_7d (env : AuthEnv) (st : AuthState) (now : Int) :
    (∀ (req : RegisterRequest) (st' : AuthState) (r : AuthResponse),
        AuthUseCase.Register env st now req = .ok (st', r) → sessionTTL env st' r = some 604800) ∧
      (∀ (req : LoginRequest) (st' : AuthState) (r : AuthResponse),
        AuthUseCase.Login env st now req = .ok (st', r) → sessionTTL env st' r = some 604800) ∧
      (∀ (tok : String) (st' : AuthState) (r : AuthResponse),
        AuthUseCase.RefreshToken env st now tok = .ok (st', r) → sessionTTL env st' r = some 604800) := by
  refine ⟨fun req st' r h => ?_, fun req st' r h => ?_, fun tok st' r h => ?_⟩
  · simp only [AuthUseCase.Register] at h
    split at h <;> try exact Except.noConfusion h
    split at h <;> try exact Except.noConfusion h
    split at h <;> try exact Except.noConfusion h
    split at h <;> try exact Except.noConfusion h
    split at h <;> try exact Except.noConfusion h
    rw [Except.ok.injEq, Prod.mk.injEq] at h
    obtain ⟨h1, h2⟩ := h
    subst h1
    subst h2
    simp [sessionTTL, cacheTTL_set_self]
  · simp only [AuthUseCase.Login] at h
    split at h <;> try exact Except.noConfusion h
    split at h <;> try exact Except.noConfusion h
    rw [Except.ok.injEq, Prod.mk.injEq] at h
    obtain ⟨h1, h2⟩ := h
    subst h1
    subst h2
    simp [sessionTTL, cacheTTL_set_self]
  · simp only [AuthUseCase.RefreshToken] at h
    split at h <;> try exact Except.noConfusion h
    split at h <;> try exact Except.noConfusion h
    rw [Except.ok.injEq, Prod.mk.injEq] at h
    obtain ⟨h1, h2⟩ := h
    subst h1
    subst h2
    simp [sessionTTL, cacheTTL_set_self]

/-- C2 witness: the session entry created by the concrete registration has
TTL 604800 s. -/
theorem session_ttl_constant_7d_witness :
    sessionTTL wEnv wReg.1 wReg.2 = some 604800 :=
  (session_ttl_constant_7d wEnv wEmptyState 0).1 wReq wReg.1 wReg.2 rfl

/-- C2 counterexample: with the refresh-TTL configured to one hour, the
entry is still stored with a 7-day TTL, so the claim "TTL equals the
configured refresh-TTL, whatever that value is" fails. -/
theorem session_ttl_ignores_config :
    isOkE (AuthUseCase.Register wEnvShort wEmptyState 0 wReq) = true ∧
      sessionTTL wEnvShort (exOkD (AuthUseCase.Register wEnvShort wEmptyState 0 wReq)).1
          (exOkD (AuthUseCase.Register wEnvShort wEmptyState 0 wReq)).2 ≠
        some wEnvShort.cfg.refreshTokenExpiry := by
  constructor
  · decide
  · decide

/-- C3 (amended): the user value returned by a successful Login or
RefreshToken call has an empty password-hash field. -/
theorem login_refresh_strip_password_hash (env : AuthEnv) (st : AuthState) (now : Int) :
    (∀ (req : LoginRequest) (st' : AuthState) (r : AuthResponse),
        AuthUseCase.Login env st now req = .ok (st', r) → r.user.passwordHash = "") ∧
      (∀ (tok : String) (st' : AuthState) (r : AuthResponse),
        AuthUseCase.RefreshToken env st now tok = .ok (st', r) → r.user.passwordHash = "") := by
  refine ⟨fun req st' r h => ?_, fun tok st' r h => ?_⟩
  · simp only [AuthUseCase.Login] at h
    split at h <;> try exact Except.noConfusion h
    split at h <;> try exact Except.noConfusion h
    rw [Except.ok.injEq, Prod.mk.injEq] at h
    obtain ⟨h1, h2⟩ := h
    subst h2
    rfl
  · simp only [AuthUseCase.RefreshToken] at h
    split at h <;> try exact Except.noConfusion h
    split at h <;> try exact Except.noConfusion h
    rw [Except.ok.injEq, Prod.mk.injEq] at h
    obtain ⟨h1, h2⟩ := h
    subst h2
    rfl

/-- C3 witness: the concrete login and rotation responses carry an empty
password-hash field. -/
theorem login_refresh_strip_password_hash_witness :
    (exOkD (AuthUseCase.Login wEnv wReg.1 3 { email := wReq.email, password := wReq.password })).2.user.passwordHash = "" ∧
      wRefreshLater.2.user.passwordHash = "" :=
  ⟨(login_refresh_strip_password_hash wEnv wReg.1 3).1
      { email := wReq.email, password := wReq.password }
      (exOkD (AuthUseCase.Login wEnv wReg.1 3 { email := wReq.email, password := wReq.password })).1
      (exOkD (AuthUseCase.Login wEnv wReg.1 3 { email := wReq.email, password := wReq.password })).2 rfl,
   (login_refresh_strip_password_hash wEnv wReg.1 5).2 wReg.2.refreshToken
      wRefreshLater.1 wRefreshLater.2 rfl⟩

/-- C3 counterexample: the user value returned by the concrete successful
Register call still carries the bcrypt hash in its password-hash field (the
use case never clears it; only the serializer's json:"-" tag keeps it out
of the wire format). -/
theorem register_response_retains_password_hash :
    isOkE (AuthUseCase.Register wEnv wEmptyState 0 wReq) = true ∧
      wReg.2.user.passwordHash = "bcrypt12$password123" ∧
      wReg.2.user.passwordHash ≠ "" := by
  refine ⟨by decide, by decide, by decide⟩

/-- C4: a login attempt with the wrong password for an existing user and a
login attempt under an unknown email both produce the identical handler
failure — 401 with the fixed body — so the two failure causes are
indistinguishable to the caller. -/
theorem login_failures_indistinguishable (env : AuthEnv) (st : AuthState) (now : Int)
    (email pw : String) (user : User) (email₂ pw₂ : String)
    (hu : st.users.findByEmail email = .ok user)
    (hpw : PasswordService.ComparePassword user.passwordHash pw = .error "invalid password")
    (hu2 : st.users.findByEmail email₂ = .error "record not found") :
    (handlerLogin env st now { email := email, password := pw }).1 =
        .fail 401 "Invalid email or password" ∧
      (handlerLogin env st now { email := email₂, password := pw₂ }).1 =
        .fail 401 "Invalid email or password" ∧
      (handlerLogin env st now { email := email, password := pw }).1 =
        (handlerLogin env st now { email := email₂, password := pw₂ }).1 := by
  have h1 : (handlerLogin env st now { email := email, password := pw }).1 =
      .fail 401 "Invalid email or password" := by
    simp only [handlerLogin, AuthUseCase.Login, hu, hpw]
  have h2 : (handlerLogin env st now { email := email₂, password := pw₂ }).1 =
      .fail 401 "Invalid email or password" := by
    simp only [handlerLogin, AuthUseCase.Login, hu2]
  exact ⟨h1, h2, by rw [h1, h2]⟩

/-- C4 witness: wrong password for the stored user and an unknown email
yield the same 401 reply. -/
theorem login_failures_indistinguishable_witness :
    (handlerLogin wEnv { users := wUsers, cache := [] } 0
          { email := "alice@example.com", password := "wrongpass" }).1 =
        .fail 401 "Invalid email or password" ∧
      (handlerLogin wEnv { users := wUsers, cache := [] } 0
          { email := "bob@example.com", password := "password123" }).1 =
        .fail 401 "Invalid email or password" ∧
      (handlerLogin wEnv { users := wUsers, cache := [] } 0
          { email := "alice@example.com", password := "wrongpass" }).1 =
        (handlerLogin wEnv { users := wUsers, cache := [] } 0
          { email := "bob@example.com", password := "password123" }).1 :=
  login_failures_indistinguishable wEnv { users := wUsers, cache := [] } 0
    "alice@example.com" "wrongpass" wUser "bob@example.com" "password123"
    rfl rfl rfl

/-- C5 counterexample: a refresh token issued at time 0 and rotated twice,
both rotations at time 0: deterministic HS256 signing regenerates the very
same token string during the first rotation, whose delete-then-set
re-registers it, so the second sequential RefreshToken call on the same
token SUCCEEDS instead of failing with the not-found error. -/
theorem double_refresh_same_second_succeeds :
    isOkE (AuthUseCase.RefreshToken wEnv wReg.1 0 wReg.2.refreshToken) = true ∧
      wRefreshSame.2.refreshToken = wReg.2.refreshToken ∧
      isOkE (AuthUseCase.RefreshToken wEnv wRefreshSame.1 0 wReg.2.refreshToken) = true := by
  refine ⟨by decide, by decide, by decide⟩

/-- C5 (amended): after a successful rotation whose newly issued refresh
token string differs from the consumed token `t` (in particular whenever
the rotation happens at a different second than the issuance of `t`), a
second sequential RefreshToken call on `t` fails with the Session Store
not-found error, because the rotation deleted the entry for `t` before
registering the new token under a different key. -/
theorem double_refresh_fails_when_rotated_token_differs (env : AuthEnv) (st : AuthState)
    (now now₂ : Int) (t : String) (st₁ : AuthState) (r₁ : AuthResponse)
    (h1 : AuthUseCase.RefreshToken env st now t = .ok (st₁, r₁))
    (hne : r₁.refreshToken ≠ t) :
    AuthUseCase.RefreshToken env st₁ now₂ t =
      .error ("key not found: " ++ env.keyBuilder.RefreshToken t) := by
  simp only [AuthUseCase.RefreshToken] at h1
  split at h1 <;> try exact Except.noConfusion h1
  split at h1 <;> try exact Except.noConfusion h1
  rw [Except.ok.injEq, Prod.mk.injEq] at h1
  obtain ⟨hst, hr⟩ := h1
  subst hst
  subst hr
  simp only [AuthUseCase.RefreshToken]
  rw [cacheGet_delete_set_other]
  intro hkeq
  exact hne (refreshKey_injective env.keyBuilder _ t hkeq)

/-- C5 witness: the registration token rotated at a later second (time 5)
yields a different token string, and the second sequential rotation of the
original token fails with the not-found error. -/
theorem double_refresh_fails_when_rotated_token_differs_witness :
    AuthUseCase.RefreshToken wEnv wRefreshLater.1 6 wReg.2.refreshToken =
      .error ("key not found: " ++ wEnv.keyBuilder.RefreshToken wReg.2.refreshToken) :=
  double_refresh_fails_when_rotated_token_differs wEnv wReg.1 5 6 wReg.2.refreshToken
    wRefreshLater.1 wRefreshLater.2 rfl (by decide)

/-- C1: evaluation at the failing input.  Logout deletes the key
"refresh_token:" ++ t while the session entry lives under the built key
"elysian:refresh_token:" ++ t, so after Logout the session entry is still
present and RefreshToken on the logged-out token still succeeds — the
claimed guaranteed NotFoundError failure does not occur. -/
theorem logout_does_not_revoke_session :
    isOkE (AuthUseCase.Register wEnv wEmptyState 0 wReq) = true ∧
      cacheGet (AuthUseCase.Logout wReg.1 wReg.2.refreshToken).cache
          (wEnv.keyBuilder.RefreshToken wReg.2.refreshToken) = .ok wReg.2.user.id ∧
      isOkE (AuthUseCase.RefreshToken wEnv
          (AuthUseCase.Logout wReg.1 wReg.2.refreshToken) 5 wReg.2.refreshToken) = true := by
  refine ⟨by decide, by rfl, by decide⟩
